import Mathlib

/-!
Shallow embedding of the flight-search tool `get_flights_data` from `app.py`
(Opti-Flight repository), together with theorems checking the specified
properties of its rating, weight handling, sorting and error behaviour.

Numeric values that the Python code holds in `float` (prices, durations,
normalized weights, ratings) are modelled exactly over `ℚ`; the tool's
integer weight arguments are modelled over `ℤ`.
-/

namespace OptiFlight

/-- A naive local timestamp, as produced by `datetime.fromisoformat` on the
`at` fields of the flight offer.  It is represented by the signed number of
seconds separating it from an arbitrary but fixed midnight, which determines
both the `hour` attribute and differences between timestamps. -/
structure DateTime where
  seconds : ℤ
  deriving DecidableEq, Repr

/-- The `hour` attribute of a naive `datetime`: the hour-of-day component,
an integer in `0..23`. -/
def DateTime.hour (t : DateTime) : ℤ :=
  t.seconds % 86400 / 3600

/-- The time of day of a timestamp, in seconds since midnight (`0..86399`).
Used to state clock-time properties such as "at or after 22:00". -/
def DateTime.timeOfDaySeconds (t : DateTime) : ℤ :=
  t.seconds % 86400

/-- One itinerary segment of a flight offer: `segments[i]` with its
`departure.at`, `arrival.at`, `carrierCode` and `number` fields. -/
structure Segment where
  departureAt : DateTime
  arrivalAt : DateTime
  carrierCode : String
  number : String
  deriving DecidableEq, Repr

/-- An itinerary: the nonempty `segments` list of `itineraries[0]`.
The first segment is kept apart so that the indexings `segments[0]` and
`segments[-1]` performed by the code are total. -/
structure Itinerary where
  firstSegment : Segment
  restSegments : List Segment
  deriving DecidableEq, Repr

/-- The full `segments` list of the itinerary. -/
def Itinerary.segments (it : Itinerary) : List Segment :=
  it.firstSegment :: it.restSegments

/-- The last segment, `segments[-1]`. -/
def Itinerary.lastSegment (it : Itinerary) : Segment :=
  it.restSegments.getLastD it.firstSegment

/-- A flight offer as consumed by the code: `price.total` (the code parses
the decimal string with `float`) and the first itinerary `itineraries[0]`
(the only one the code ever reads). -/
structure FlightOffer where
  priceTotal : ℚ
  firstItinerary : Itinerary
  deriving DecidableEq, Repr

/-- The departure timestamp the code uses:
`itineraries[0].segments[0].departure.at`. -/
def FlightOffer.departureTime (f : FlightOffer) : DateTime :=
  f.firstItinerary.firstSegment.departureAt

/-- The arrival timestamp the code uses:
`itineraries[0].segments[-1].arrival.at`. -/
def FlightOffer.arrivalTime (f : FlightOffer) : DateTime :=
  f.firstItinerary.lastSegment.arrivalAt

/-- The `RatingWeights` object after `__init__` has run `_correct_weights`
and `_normalize_weights`: five rational weights. -/
structure RatingWeights where
  priceWeight : ℚ
  durationWeight : ℚ
  lateArrivalWeight : ℚ
  earlyDepartureWeight : ℚ
  nonDirectFlightWeight : ℚ
  deriving DecidableEq, Repr

/-- The clamping applied by `_correct_weights` to one weight:
`max(0, min(w, 5))`. -/
def correctWeight (w : ℤ) : ℤ :=
  max 0 (min w 5)

/-- Construction of a `RatingWeights` object: clamp each weight to `[0, 5]`
(`_correct_weights`), then, when the sum of the clamped weights is nonzero,
divide each weight by that sum (`_normalize_weights`); when the sum is zero
the division is skipped and the clamped weights are kept. -/
def mkRatingWeights (price_weight duration_weight late_arrival_weight
    early_departure_weight non_direct_flight_weight : ℤ) : RatingWeights :=
  let pw := correctWeight price_weight
  let dw := correctWeight duration_weight
  let law := correctWeight late_arrival_weight
  let edw := correctWeight early_departure_weight
  let ndw := correctWeight non_direct_flight_weight
  let weights_sum := pw + dw + law + edw + ndw
  if weights_sum ≠ 0 then
    ⟨(pw : ℚ) / weights_sum, (dw : ℚ) / weights_sum, (law : ℚ) / weights_sum,
      (edw : ℚ) / weights_sum, (ndw : ℚ) / weights_sum⟩
  else
    ⟨(pw : ℚ), (dw : ℚ), (law : ℚ), (edw : ℚ), (ndw : ℚ)⟩

/-- Python's built-in `round` to the nearest integer: round half to even
(banker's rounding). -/
def pyRoundInt (q : ℚ) : ℤ :=
  let f := ⌊q⌋
  if q - f < 1 / 2 then f
  else if 1 / 2 < q - f then f + 1
  else if f % 2 = 0 then f else f + 1

/-- Python's `round(x, 2)`: round to two decimal places. -/
def round2 (q : ℚ) : ℚ :=
  (pyRoundInt (q * 100) : ℚ) / 100

/-- The body of `calculate_rating` in `app.py`, mirrored statement by
statement (with the trailing `round(rating, 2)`). -/
def calculate_rating (rating_weights : RatingWeights) (flight : FlightOffer) : ℚ :=
  let price := flight.priceTotal
  let departure_time := flight.firstItinerary.firstSegment.departureAt
  let arrival_time := flight.firstItinerary.lastSegment.arrivalAt
  let isFlightNonDirect : ℚ := if 1 < flight.firstItinerary.segments.length then 20 else 0
  let duration : ℚ := ((arrival_time.seconds - departure_time.seconds : ℤ) : ℚ) / 3600
  let late_arrival_penalty : ℚ := if 22 ≤ arrival_time.hour then 20 else 0
  let early_departure_penalty : ℚ := if departure_time.hour < 6 then 20 else 0
  let rating :=
    rating_weights.priceWeight * price +
    rating_weights.durationWeight * duration +
    rating_weights.lateArrivalWeight * late_arrival_penalty +
    rating_weights.earlyDepartureWeight * early_departure_penalty +
    rating_weights.nonDirectFlightWeight * isFlightNonDirect
  round2 rating

/-- A `flight_info` dictionary as assembled by `get_flights_data` for one
offer: price, departure/arrival timestamps, airline, flight number,
directness flag and rating. -/
structure FlightInfo where
  price : ℚ
  departure : DateTime
  arrival : DateTime
  airline : String
  flight_number : String
  is_direct : Bool
  rating : ℚ
  deriving DecidableEq, Repr

/-- The `flight_info` dictionary built for each offer in `get_flights_data`
(the code formats `departure` and `arrival` for display with `strftime`;
here the timestamps themselves are kept). -/
def mkFlightInfo (rating_weights : RatingWeights) (flight : FlightOffer) : FlightInfo :=
  { price := flight.priceTotal
    departure := flight.firstItinerary.firstSegment.departureAt
    arrival := flight.firstItinerary.lastSegment.arrivalAt
    airline := flight.firstItinerary.firstSegment.carrierCode
    flight_number := flight.firstItinerary.firstSegment.number
    is_direct := if 1 < flight.firstItinerary.segments.length then false else true
    rating := calculate_rating rating_weights flight }

/-- The comparison `flights.sort(key=lambda x: x['rating'])` sorts by, as a
boolean relation on `flight_info` records. -/
def ratingLe (a b : FlightInfo) : Bool :=
  decide (a.rating ≤ b.rating)

/-- The body of `get_flights_data`.  The already-performed API call is
modelled by an `Except` value: `.ok data` is a successful response carrying
`response.data`, `.error e` is a raised `ResponseError`.  The result pairs
the returned list with the message printed by the `except` branch (`none`
when nothing is printed).  On success the offers are mapped to
`flight_info` records and sorted by rating, lowest first; on failure the
error is printed and the empty list is returned, with no second attempt. -/
def get_flights_data (price_weight duration_weight late_arrival_weight
    early_departure_weight non_direct_flight_weight : ℤ)
    (response : Except String (List FlightOffer)) :
    List FlightInfo × Option String :=
  match response with
  | .ok data =>
      let rating_weights := mkRatingWeights price_weight duration_weight
        late_arrival_weight early_departure_weight non_direct_flight_weight
      let flights := data.map (mkFlightInfo rating_weights)
      (flights.mergeSort ratingLe, none)
  | .error e => ([], some ("Error fetching flight data: " ++ e))

/-- The value of the local variable `rating` in `calculate_rating` before the
final `round(rating, 2)`: the exact weighted sum, mirroring the source. -/
def exactRating (rating_weights : RatingWeights) (flight : FlightOffer) : ℚ :=
  let price := flight.priceTotal
  let departure_time := flight.firstItinerary.firstSegment.departureAt
  let arrival_time := flight.firstItinerary.lastSegment.arrivalAt
  let isFlightNonDirect : ℚ := if 1 < flight.firstItinerary.segments.length then 20 else 0
  let duration : ℚ := ((arrival_time.seconds - departure_time.seconds : ℤ) : ℚ) / 3600
  let late_arrival_penalty : ℚ := if 22 ≤ arrival_time.hour then 20 else 0
  let early_departure_penalty : ℚ := if departure_time.hour < 6 then 20 else 0
  rating_weights.priceWeight * price +
  rating_weights.durationWeight * duration +
  rating_weights.lateArrivalWeight * late_arrival_penalty +
  rating_weights.earlyDepartureWeight * early_departure_penalty +
  rating_weights.nonDirectFlightWeight * isFlightNonDirect

/-- The weighted sum exactly as the specification words it (with no
rounding): `(priceWeight * price) + (durationWeight * duration_in_hours)`
plus `lateArrivalWeight * 20` when the arrival clock time is at or after
22:00, `earlyDepartureWeight * 20` when the departure clock time is before
06:00, and `nonDirectFlightWeight * 20` when the itinerary has more than
one segment.  This definition follows the spec sentence, to be compared
with `calculate_rating`, which follows the code. -/
def specWeightedSum (w : RatingWeights) (f : FlightOffer) : ℚ :=
  w.priceWeight * f.priceTotal +
  w.durationWeight * (((f.arrivalTime.seconds - f.departureTime.seconds : ℤ) : ℚ) / 3600) +
  (if 79200 ≤ f.arrivalTime.timeOfDaySeconds then w.lateArrivalWeight * 20 else 0) +
  (if f.departureTime.timeOfDaySeconds < 21600 then w.earlyDepartureWeight * 20 else 0) +
  (if 1 < f.firstItinerary.segments.length then w.nonDirectFlightWeight * 20 else 0)

/- Concrete sample data used by counterexamples and witnesses. -/

/-- A direct flight priced 10.005, departing 10:00, arriving 11:00. -/
def offerA : FlightOffer :=
  { priceTotal := 10.005
    firstItinerary := ⟨⟨⟨36000⟩, ⟨39600⟩, "AA", "100"⟩, []⟩ }

/-- A direct flight arriving at exactly 22:00 (departing 20:00). -/
def offerB : FlightOffer :=
  { priceTotal := 100
    firstItinerary := ⟨⟨⟨72000⟩, ⟨79200⟩, "AA", "1"⟩, []⟩ }

/-- A direct flight departing at exactly 06:00 (arriving 07:00). -/
def offerC : FlightOffer :=
  { priceTotal := 100
    firstItinerary := ⟨⟨⟨21600⟩, ⟨25200⟩, "AA", "2"⟩, []⟩ }

/-- A two-segment flight whose segments are operated by different
carriers with different flight numbers. -/
def offerD : FlightOffer :=
  { priceTotal := 250
    firstItinerary := ⟨⟨⟨36000⟩, ⟨43200⟩, "AA", "100"⟩, [⟨⟨46800⟩, ⟨54000⟩, "BB", "200"⟩]⟩ }

/-- A direct flight priced 10.004, departing 10:00, arriving 11:00. -/
def offerE : FlightOffer :=
  { priceTotal := 10.004
    firstItinerary := ⟨⟨⟨36000⟩, ⟨39600⟩, "CC", "300"⟩, []⟩ }

/-- A direct flight priced 10.001, departing 10:00, arriving 11:00. -/
def offerF : FlightOffer :=
  { priceTotal := 10.001
    firstItinerary := ⟨⟨⟨36000⟩, ⟨39600⟩, "DD", "400"⟩, []⟩ }

/- Helper lemmas. -/

/-- The hour test `arrival_time.hour >= 22` used by the code is the
clock-time test "at or after 22:00". -/
lemma hour_ge_22_iff (t : DateTime) : 22 ≤ t.hour ↔ 79200 ≤ t.timeOfDaySeconds := by
  unfold DateTime.hour DateTime.timeOfDaySeconds
  rw [Int.le_ediv_iff_mul_le (by norm_num)]
  norm_num

/-- The hour test `departure_time.hour < 6` used by the code is the
clock-time test "before 06:00". -/
lemma hour_lt_6_iff (t : DateTime) : t.hour < 6 ↔ t.timeOfDaySeconds < 21600 := by
  unfold DateTime.hour DateTime.timeOfDaySeconds
  rw [Int.ediv_lt_iff_lt_mul (by norm_num)]
  norm_num

/-- The exact rating of the code agrees with the spec-worded weighted sum. -/
lemma exactRating_eq_specWeightedSum (w : RatingWeights) (f : FlightOffer) :
    exactRating w f = specWeightedSum w f := by
  unfold exactRating specWeightedSum FlightOffer.arrivalTime FlightOffer.departureTime
  simp only [hour_ge_22_iff, hour_lt_6_iff]
  split_ifs <;> ring

/-- The list produced by a successful `get_flights_data` call is pairwise
non-decreasing in the `rating` field. -/
lemma get_flights_data_ok_pairwise (price_weight duration_weight late_arrival_weight
    early_departure_weight non_direct_flight_weight : ℤ) (data : List FlightOffer) :
    ((get_flights_data price_weight duration_weight late_arrival_weight
        early_departure_weight non_direct_flight_weight (.ok data)).1).Sorted
      (fun a b => a.rating ≤ b.rating) := by
  have h := @List.sorted_mergeSort FlightInfo ratingLe
    (fun a b c hab hbc => by
      simp only [ratingLe, decide_eq_true_eq] at hab hbc ⊢
      exact le_trans hab hbc)
    (fun a b => by
      simp only [ratingLe, Bool.or_eq_true, decide_eq_true_eq]
      exact le_total a.rating b.rating)
    ((data.map (mkFlightInfo (mkRatingWeights price_weight duration_weight
      late_arrival_weight early_departure_weight non_direct_flight_weight))))
  simp only [get_flights_data, List.Sorted]
  exact h.imp (fun {a b} hab => by simpa [ratingLe] using hab)

/-- C4: for every input weight value, including negative values and values
above 5, the weight after the clamping step `_correct_weights` lies in the
interval `[0, 5]`. -/
theorem correctWeight_mem_Icc (w : ℤ) : correctWeight w ∈ Set.Icc (0 : ℤ) 5 := by
  simp only [correctWeight, Set.mem_Icc]
  omega

/-- C3: for every five input weights, if the sum of the clamped weights is
nonzero, then after normalization the five fields of the `RatingWeights`
object sum to 1. -/
theorem mkRatingWeights_sum_eq_one (price_weight duration_weight late_arrival_weight
    early_departure_weight non_direct_flight_weight : ℤ)
    (h : correctWeight price_weight + correctWeight duration_weight +
      correctWeight late_arrival_weight + correctWeight early_departure_weight +
      correctWeight non_direct_flight_weight ≠ 0) :
    (mkRatingWeights price_weight duration_weight late_arrival_weight
        early_departure_weight non_direct_flight_weight).priceWeight +
      (mkRatingWeights price_weight duration_weight late_arrival_weight
        early_departure_weight non_direct_flight_weight).durationWeight +
      (mkRatingWeights price_weight duration_weight late_arrival_weight
        early_departure_weight non_direct_flight_weight).lateArrivalWeight +
      (mkRatingWeights price_weight duration_weight late_arrival_weight
        early_departure_weight non_direct_flight_weight).earlyDepartureWeight +
      (mkRatingWeights price_weight duration_weight late_arrival_weight
        early_departure_weight non_direct_flight_weight).nonDirectFlightWeight = 1 := by
  simp only [mkRatingWeights, if_pos h]
  rw [div_add_div_same, div_add_div_same, div_add_div_same, div_add_div_same]
  rw [div_eq_one_iff_eq (by exact_mod_cast h)]
  push_cast
  ring

/-- Witness for C3 at the concrete weights (1, 1, 1, 0, 0). -/
theorem mkRatingWeights_sum_eq_one_witness :
    (mkRatingWeights 1 1 1 0 0).priceWeight + (mkRatingWeights 1 1 1 0 0).durationWeight +
      (mkRatingWeights 1 1 1 0 0).lateArrivalWeight +
      (mkRatingWeights 1 1 1 0 0).earlyDepartureWeight +
      (mkRatingWeights 1 1 1 0 0).nonDirectFlightWeight = 1 :=
  mkRatingWeights_sum_eq_one 1 1 1 0 0 (by decide)

/-- C8: when the API call raises a `ResponseError`, `get_flights_data`
prints the error message and returns the empty list; the single modelled
call is never reattempted. -/
theorem get_flights_data_error_empty (price_weight duration_weight late_arrival_weight
    early_departure_weight non_direct_flight_weight : ℤ) (e : String) :
    get_flights_data price_weight duration_weight late_arrival_weight
        early_departure_weight non_direct_flight_weight (.error e) =
      ([], some ("Error fetching flight data: " ++ e)) := rfl

/-- C2: for every successful invocation of `get_flights_data`, the returned
list of flight summaries is sorted in non-decreasing order of the `rating`
field. -/
theorem get_flights_data_sorted_by_rating (price_weight duration_weight late_arrival_weight
    early_departure_weight non_direct_flight_weight : ℤ) (data : List FlightOffer) :
    ((get_flights_data price_weight duration_weight late_arrival_weight
        early_departure_weight non_direct_flight_weight (.ok data)).1).Sorted
      (fun a b => a.rating ≤ b.rating) :=
  get_flights_data_ok_pairwise price_weight duration_weight late_arrival_weight
    early_departure_weight non_direct_flight_weight data

/-- C1 counterexample: for the offer `offerA` (price 10.005) and weights
(1, 0, 0, 0, 0), the rating computed by `calculate_rating` differs from the
unrounded weighted sum of the claim (the code rounds to two decimals). -/
theorem calculate_rating_ne_spec_weighted_sum :
    calculate_rating (mkRatingWeights 1 0 0 0 0) offerA ≠
      specWeightedSum (mkRatingWeights 1 0 0 0 0) offerA := by
  norm_num [calculate_rating, specWeightedSum, mkRatingWeights, correctWeight,
    round2, pyRoundInt, offerA, Itinerary.segments, Itinerary.lastSegment,
    FlightOffer.arrivalTime, FlightOffer.departureTime, DateTime.hour,
    DateTime.timeOfDaySeconds]

/-- C1 amended: for every flight offer, the rating computed by
`calculate_rating` equals the weighted sum of the claim rounded to two
decimal places, where the weights are the clamped-and-normalized rating
weights. -/
theorem calculate_rating_eq_rounded_spec_sum (price_weight duration_weight
    late_arrival_weight early_departure_weight non_direct_flight_weight : ℤ)
    (f : FlightOffer) :
    calculate_rating (mkRatingWeights price_weight duration_weight late_arrival_weight
        early_departure_weight non_direct_flight_weight) f =
      round2 (specWeightedSum (mkRatingWeights price_weight duration_weight
        late_arrival_weight early_departure_weight non_direct_flight_weight) f) := by
  rw [show calculate_rating (mkRatingWeights price_weight duration_weight late_arrival_weight
      early_departure_weight non_direct_flight_weight) f =
    round2 (exactRating (mkRatingWeights price_weight duration_weight late_arrival_weight
      early_departure_weight non_direct_flight_weight) f) from rfl]
  rw [exactRating_eq_specWeightedSum]

/-- C5: if all five clamped weights are zero, normalization is skipped (the
weights object keeps the five zero weights) and the rating computed by
`calculate_rating` is 0 for every flight offer. -/
theorem rating_zero_of_zero_clamped_weights (price_weight duration_weight
    late_arrival_weight early_departure_weight non_direct_flight_weight : ℤ)
    (h : correctWeight price_weight = 0 ∧ correctWeight duration_weight = 0 ∧
      correctWeight late_arrival_weight = 0 ∧ correctWeight early_departure_weight = 0 ∧
      correctWeight non_direct_flight_weight = 0)
    (f : FlightOffer) :
    mkRatingWeights price_weight duration_weight late_arrival_weight
        early_departure_weight non_direct_flight_weight = ⟨0, 0, 0, 0, 0⟩ ∧
      calculate_rating (mkRatingWeights price_weight duration_weight late_arrival_weight
        early_departure_weight non_direct_flight_weight) f = 0 := by
  obtain ⟨h1, h2, h3, h4, h5⟩ := h
  have hw : mkRatingWeights price_weight duration_weight late_arrival_weight
      early_departure_weight non_direct_flight_weight = ⟨0, 0, 0, 0, 0⟩ := by
    simp [mkRatingWeights, h1, h2, h3, h4, h5]
  refine ⟨hw, ?_⟩
  rw [hw]
  norm_num [calculate_rating, round2, pyRoundInt]

/-- Witness for C5 at the concrete weights (-3, -1, 0, 0, -7), all of which
clamp to 0, and the concrete offer `offerA`. -/
theorem rating_zero_of_zero_clamped_weights_witness :
    mkRatingWeights (-3) (-1) 0 0 (-7) = ⟨0, 0, 0, 0, 0⟩ ∧
      calculate_rating (mkRatingWeights (-3) (-1) 0 0 (-7)) offerA = 0 :=
  rating_zero_of_zero_clamped_weights (-3) (-1) 0 0 (-7) (by decide) offerA

/-- C6: the late-arrival contribution of 20 is applied exactly when the
arrival clock time is at or after 22:00 and the early-departure
contribution of 20 exactly when the departure clock time is before 06:00;
in particular an arrival at exactly 22:00 is penalized (offer `offerB`) and
a departure at exactly 06:00 is not (offer `offerC`). -/
theorem penalties_applied_at_clock_boundaries (w : RatingWeights) (f : FlightOffer) :
    calculate_rating w f =
      round2 (w.priceWeight * f.priceTotal +
        w.durationWeight * (((f.arrivalTime.seconds - f.departureTime.seconds : ℤ) : ℚ) / 3600) +
        w.lateArrivalWeight * (if 79200 ≤ f.arrivalTime.timeOfDaySeconds then 20 else 0) +
        w.earlyDepartureWeight * (if f.departureTime.timeOfDaySeconds < 21600 then 20 else 0) +
        w.nonDirectFlightWeight * (if 1 < f.firstItinerary.segments.length then 20 else 0)) ∧
    calculate_rating (mkRatingWeights 0 0 1 0 0) offerB = 20 ∧
    calculate_rating (mkRatingWeights 0 0 0 1 0) offerC = 0 := by
  refine ⟨?_, ?_, ?_⟩
  · rw [show calculate_rating w f = round2 (exactRating w f) from rfl]
    congr 1
    simp only [exactRating, FlightOffer.arrivalTime, FlightOffer.departureTime,
      hour_ge_22_iff, hour_lt_6_iff]
  · norm_num [calculate_rating, mkRatingWeights, correctWeight, round2, pyRoundInt,
      offerB, Itinerary.segments, Itinerary.lastSegment, DateTime.hour]
  · norm_num [calculate_rating, mkRatingWeights, correctWeight, round2, pyRoundInt,
      offerC, Itinerary.segments, Itinerary.lastSegment, DateTime.hour]

/-- C7: the `is_direct` flag is true exactly when the itinerary has a
single segment; with more than one segment the flag is false and the rating
includes the non-direct penalty of 20 weighted by `nonDirectFlightWeight`. -/
theorem is_direct_iff_single_segment (w : RatingWeights) (f : FlightOffer) :
    ((mkFlightInfo w f).is_direct = true ↔ f.firstItinerary.segments.length = 1) ∧
    (1 < f.firstItinerary.segments.length →
      (mkFlightInfo w f).is_direct = false ∧
      calculate_rating w f =
        round2 (w.priceWeight * f.priceTotal +
          w.durationWeight *
            (((f.firstItinerary.lastSegment.arrivalAt.seconds -
              f.firstItinerary.firstSegment.departureAt.seconds : ℤ) : ℚ) / 3600) +
          w.lateArrivalWeight * (if 22 ≤ f.firstItinerary.lastSegment.arrivalAt.hour
            then 20 else 0) +
          w.earlyDepartureWeight * (if f.firstItinerary.firstSegment.departureAt.hour < 6
            then 20 else 0) +
          w.nonDirectFlightWeight * 20)) := by
  constructor
  · by_cases h : 1 < f.firstItinerary.segments.length
    · simp only [mkFlightInfo, if_pos h]
      constructor
      · intro hf; exact absurd hf (by simp)
      · intro hlen; omega
    · simp only [mkFlightInfo, if_neg h]
      have hlen : f.firstItinerary.segments.length = f.firstItinerary.restSegments.length + 1 := by
        simp [Itinerary.segments]
      constructor
      · intro _; omega
      · intro _; trivial
  · intro h
    refine ⟨by simp [mkFlightInfo, h], ?_⟩
    rw [show calculate_rating w f = round2 (exactRating w f) from rfl]
    congr 1
    simp only [exactRating, if_pos h]

/-- Witness for C7 at the two-segment offer `offerD`. -/
theorem is_direct_iff_single_segment_witness :
    (mkFlightInfo (mkRatingWeights 0 0 0 0 5) offerD).is_direct = false :=
  ((is_direct_iff_single_segment (mkRatingWeights 0 0 0 0 5) offerD).2
    (by simp [offerD, Itinerary.segments])).1

/-- C9: every rating is the exact weighted sum rounded to two decimal
places, the returned flights are ordered by that stored (rounded) rating,
and the rounding is what the order depends on: the offers `offerE` and
`offerF` have different exact weighted sums but identical ratings, so the
sort key cannot distinguish them although the exact sums would. -/
theorem rating_is_rounded_and_sort_uses_rounded :
    (∀ (w : RatingWeights) (f : FlightOffer),
      calculate_rating w f = round2 (exactRating w f)) ∧
    (∀ (price_weight duration_weight late_arrival_weight early_departure_weight
        non_direct_flight_weight : ℤ) (data : List FlightOffer),
      ((get_flights_data price_weight duration_weight late_arrival_weight
          early_departure_weight non_direct_flight_weight (.ok data)).1).Sorted
        (fun a b => a.rating ≤ b.rating)) ∧
    exactRating (mkRatingWeights 1 0 0 0 0) offerE ≠
      exactRating (mkRatingWeights 1 0 0 0 0) offerF ∧
    calculate_rating (mkRatingWeights 1 0 0 0 0) offerE =
      calculate_rating (mkRatingWeights 1 0 0 0 0) offerF := by
  refine ⟨fun w f => rfl,
    fun a b c d e data => get_flights_data_ok_pairwise a b c d e data, ?_, ?_⟩
  · norm_num [exactRating, mkRatingWeights, correctWeight, offerE, offerF,
      Itinerary.segments, Itinerary.lastSegment, DateTime.hour]
  · norm_num [calculate_rating, mkRatingWeights, correctWeight, round2, pyRoundInt,
      offerE, offerF, Itinerary.segments, Itinerary.lastSegment, DateTime.hour]

/-- C10: the airline and flight-number fields of a flight summary are taken
from the first segment of the first itinerary only; for the two-segment,
two-carrier offer `offerD` they differ from the second segment's values. -/
theorem airline_from_first_segment (w : RatingWeights) (f : FlightOffer) :
    (mkFlightInfo w f).airline = f.firstItinerary.firstSegment.carrierCode ∧
    (mkFlightInfo w f).flight_number = f.firstItinerary.firstSegment.number ∧
    (mkFlightInfo w offerD).airline ≠ offerD.firstItinerary.lastSegment.carrierCode ∧
    (mkFlightInfo w offerD).flight_number ≠ offerD.firstItinerary.lastSegment.number := by
  refine ⟨rfl, rfl, ?_, ?_⟩ <;> simp [mkFlightInfo, offerD, Itinerary.lastSegment]

end OptiFlight
